import Mathlib

/-!
Verification of the caikit-nlp specification claims against the repository's
code: the fine-tuning wrapper (`caikit_nlp/modules/text_generation/fine_tuning.py`)
and the reranker module behavior (modelled from the spec; only its test suite
`tests/modules/reranker/test_reranks.py` is present in the snapshot).

Conventions: Python dicts become association lists where the last binding of a
key wins (matching `{**a, **b}` merge semantics); raised exceptions become
`Except` errors; external ML machinery (cross-encoder scoring, HF generation)
is abstracted as explicit function parameters carried in the model structures.
-/

namespace CaikitNlp

/-! Section: Reranker data model (modelled from the spec) -/

/-- A value stored under a document key: string, integer, or numeric
(floating-point values are represented as rationals). -/
inductive DocVal
  | str (s : String)
  | int (i : Int)
  | num (q : ℚ)
deriving DecidableEq

/-- Modelled from the spec: a reranker input document is a mapping with
arbitrary passthrough keys and values (the Rerank module source file is not in
the repository snapshot; only its tests are). -/
abbrev Document := List (String × DocVal)

/-- One score entry: result score, corpus index into the original document
list, and the original document passed through. -/
structure RerankScore where
  score : Int
  corpus_id : Nat
  document : Document
deriving DecidableEq

/-- Per-query result: an ordered list of score entries. -/
structure RerankQueryResult where
  scores : List RerankScore
deriving DecidableEq

/-- Batch result: one `RerankQueryResult` per query. -/
structure RerankPrediction where
  results : List RerankQueryResult
deriving DecidableEq

/-- Descending order on score entries: `a` before `b` when `b`'s score is at
most `a`'s. -/
def scoreDesc (a b : RerankScore) : Prop := b.score ≤ a.score

instance : DecidableRel scoreDesc := fun a b =>
  inferInstanceAs (Decidable (b.score ≤ a.score))

instance : IsTotal RerankScore scoreDesc :=
  ⟨fun a b => le_total b.score a.score⟩

instance : IsTrans RerankScore scoreDesc :=
  ⟨fun _ _ _ h1 h2 => le_trans h2 h1⟩

/-- Modelled from the spec: `top_n` is clamped into `[1, len(documents)]`;
values `<= 0` or `None` or exceeding the document count default to all
documents. -/
def clampTopN (top_n : Option Int) (numDocs : Nat) : Nat :=
  match top_n with
  | Option.none => numDocs
  | Option.some t => if t ≤ 0 then numDocs else min t.toNat numDocs

/-- A reranker model instance: an instance identity plus the cross-encoder
scoring function (the external model, abstracted). -/
structure Rerank where
  instId : Nat
  scoreFn : String → Document → Int

/-- Modelled from the spec: score every document against one query, attach the
corpus index and the passthrough document, order by descending score, and
truncate to the clamped `top_n`. -/
def Rerank.rankDocs (m : Rerank) (query : String) (documents : List Document)
    (top_n : Option Int) : RerankQueryResult :=
  let scored := documents.enum.map
    (fun p => RerankScore.mk (m.scoreFn query p.2) p.1 p.2)
  let sorted := scored.insertionSort scoreDesc
  ⟨sorted.take (clampTopN top_n documents.length)⟩

/-- Modelled from the spec: `run_queries` returns one ordered score list per
query; empty queries or empty documents yield zero results without error. -/
def Rerank.run_queries (m : Rerank) (queries : List String)
    (documents : List Document) (top_n : Option Int) : RerankPrediction :=
  if documents.isEmpty then ⟨[]⟩
  else ⟨queries.map (fun q => m.rankDocs q documents top_n)⟩

/-! Section: Reranker save / load (modelled from the spec) -/

/-- A Python value passed as the `path` argument of `save`: a string or one of
the non-string kinds the tests exercise. -/
inductive PyVal
  | str (s : String)
  | pyNone
  | dict
  | obj
  | int (i : Int)

/-- Errors `save` can raise. -/
inductive SaveErr
  | typeError
  | valueError
  | fileExists
deriving DecidableEq

/-- Errors `load` can raise. -/
inductive LoadErr
  | valueError
  | notFound
deriving DecidableEq

/-- Filesystem model: a list of existing directory paths, each optionally
holding a saved reranker artifact (the stored scoring data); `Option.none`
marks a pre-existing directory with no loadable artifact. -/
structure FS where
  entries : List (String × Option (String → Document → Int))

/-- Modelled from the spec: a path string is blank when it is empty or
consists only of whitespace characters. -/
def isBlank (s : String) : Bool := s.data.all Char.isWhitespace

/-- Modelled from the spec: `save(path)` raises a type error for a non-string
path, a value error for an empty or whitespace-only path, and an
already-exists error when the target directory exists; on success it writes a
new artifact directory and never overwrites. -/
def Rerank.save (m : Rerank) (fs : FS) (path : PyVal) : Except SaveErr FS :=
  match path with
  | PyVal.str s =>
      if isBlank s then Except.error SaveErr.valueError
      else if s ∈ fs.entries.map Prod.fst then Except.error SaveErr.fileExists
      else Except.ok ⟨(s, Option.some m.scoreFn) :: fs.entries⟩
  | _ => Except.error SaveErr.typeError

/-- Modelled from the spec: `load` fails with a value error when the artifact
has neither inline model weights nor a loadable model reference; otherwise it
constructs a fresh Rerank instance from the stored artifact. -/
def Rerank.load (fs : FS) (path : String) (freshId : Nat) :
    Except LoadErr Rerank :=
  match fs.entries.lookup path with
  | Option.some (Option.some scorer) => Except.ok ⟨freshId, scorer⟩
  | Option.some Option.none => Except.error LoadErr.valueError
  | Option.none => Except.error LoadErr.notFound

/-! Section: Fine-tuning wrapper (`fine_tuning.py`) -/

/-- The resolved torch dtype relevant to `FineTuning.train`'s dtype-based
processing: half precision, bfloat16, or anything else (treated as float32). -/
inductive TorchDtype
  | float16
  | bfloat16
  | float32
  | other
deriving DecidableEq

/-- A value stored in the HF training-argument dict: bool, int, string, or
numeric (floats as rationals). -/
inductive TAVal
  | vBool (b : Bool)
  | vInt (i : Int)
  | vStr (s : String)
  | vRat (q : ℚ)
deriving DecidableEq

/-- Python dict lookup over the insertion list of a dict display: the last
binding of a key wins, matching the semantics of `{**a, **b}` merges. -/
def dictGet : List (String × TAVal) → String → Option TAVal
  | [], _ => Option.none
  | (k, v) :: rest, key =>
      match dictGet rest key with
      | Option.some w => Option.some w
      | Option.none => if k = key then Option.some v else Option.none

/-- The dtype-based trainer parameters of `FineTuning.train`
(`fine_tuning.py` lines 156-169): float16 sets `fp16`, bfloat16 sets `bf16`,
anything else defaults to float32 with no flag. -/
def dtype_based_params : TorchDtype → List (String × TAVal)
  | TorchDtype.float16 => [("fp16", TAVal.vBool true)]
  | TorchDtype.bfloat16 => [("bf16", TAVal.vBool true)]
  | _ => []

/-- The built-in training-argument defaults of `FineTuning.train`
(`fine_tuning.py` lines 180-197), in dict-display order. -/
def builtin_training_args (checkpoint_dir : String)
    (batch_size num_epochs accumulate_steps : Int) (lr : ℚ) :
    List (String × TAVal) :=
  [("output_dir", TAVal.vStr checkpoint_dir),
   ("per_device_train_batch_size", TAVal.vInt batch_size),
   ("per_device_eval_batch_size", TAVal.vInt batch_size),
   ("num_train_epochs", TAVal.vInt num_epochs),
   ("do_eval", TAVal.vBool false),
   ("learning_rate", TAVal.vRat lr),
   ("weight_decay", TAVal.vRat (1 / 100)),
   ("save_total_limit", TAVal.vInt 3),
   ("push_to_hub", TAVal.vBool false),
   ("no_cuda", TAVal.vBool false),
   ("remove_unused_columns", TAVal.vBool false),
   ("dataloader_pin_memory", TAVal.vBool false),
   ("gradient_accumulation_steps", TAVal.vInt accumulate_steps),
   ("eval_accumulation_steps", TAVal.vInt accumulate_steps)]

/-- The merged `training_args` dict of `FineTuning.train`
(`fine_tuning.py` lines 180-200): the built-in defaults, then the caller's
`**training_arguments` pass-through, then `**dtype_based_params`. -/
def training_args (checkpoint_dir : String)
    (batch_size num_epochs accumulate_steps : Int) (lr : ℚ)
    (training_arguments : List (String × TAVal)) (torch_dtype : TorchDtype) :
    List (String × TAVal) :=
  builtin_training_args checkpoint_dir batch_size num_epochs accumulate_steps lr
    ++ training_arguments ++ dtype_based_params torch_dtype

/-- An abstract tokenizer reference as stored on the wrapper. -/
structure Tokenizer where
  id : Nat
deriving DecidableEq

/-- The model object held by a `FineTuning` wrapper: an HF `Seq2SeqTrainer`
(its tokenize / `prediction_step` / `batch_decode` generation pipeline
abstracted as a function from input text and token bounds to decoded text), a
plain HF `Trainer`, or a model that is not a trainer at all. -/
inductive WrappedModel
  | seq2seqTrainer (predict : String → Nat → Nat → String)
  | plainTrainer
  | notTrainer

/-- The `FineTuning` wrapper instance: a tokenizer reference and the model
(which can also be an HF trainer, per the constructor note in the source). -/
structure FineTuning where
  tokenizer : Tokenizer
  model : WrappedModel

/-- Result type of `FineTuning.run`. -/
structure GeneratedTextResult where
  generated_text : String
deriving DecidableEq

/-- The explicit not-implemented errors `FineTuning.run` raises: generation on
a plain `Trainer` (error id NLP39984681E) and prediction on a non-trainer
model (error id NLP38929392E). -/
inductive RunError
  | notImplementedTrainerGeneration
  | notImplementedPreFinetuned
deriving DecidableEq

/-- `FineTuning.run` (`fine_tuning.py` lines 234-301): branch on the wrapped
model; only a `Seq2SeqTrainer` supports single-example generation, the plain
`Trainer` and non-trainer branches raise explicit not-implemented errors. The
`preserve_input_text` argument is accepted but unused in the body. -/
def FineTuning.run (ft : FineTuning) (text : String)
    ( preserve_input_text : Bool) (max_new_tokens : Nat)
    (min_new_tokens : Nat) : Except RunError GeneratedTextResult :=
  match ft.model with
  | WrappedModel.seq2seqTrainer predict =>
      Except.ok ⟨predict text max_new_tokens min_new_tokens⟩
  | WrappedModel.plainTrainer =>
      Except.error RunError.notImplementedTrainerGeneration
  | WrappedModel.notTrainer =>
      Except.error RunError.notImplementedPreFinetuned

/-- Outcome of the tail of `FineTuning.train`: the wrapper returned, whether
the low-epoch warning was logged, and whether `trainer.train()` was invoked. -/
structure TrainOutcome where
  wrapper : FineTuning
  warned : Bool
  trainerTrainInvoked : Bool

/-- The epilogue of `FineTuning.train` (`fine_tuning.py` lines 202-231): after
the trainer is constructed, `num_epochs < 1` logs warning NLP64076114W and
returns the untrained wrapper without invoking `trainer.train()`; otherwise
`trainer.train()` runs and the wrapper is returned. Neither path raises. -/
def FineTuning.trainFinalize (tok : Tokenizer) (trainer : WrappedModel)
    (num_epochs : Int) : Except Unit TrainOutcome :=
  if num_epochs < 1 then
    Except.ok ⟨⟨tok, trainer⟩, true, false⟩
  else
    Except.ok ⟨⟨tok, trainer⟩, false, true⟩

/-! Section: Sample fixtures mirroring the reranker test suite's data -/

/-- A sample document with passthrough extras, as in the test DOCS. -/
def sampleDoc0 : Document :=
  [("text", DocVal.str "foo"), ("title", DocVal.str "title or whatever"),
   ("str_test", DocVal.str "test string"), ("int_test", DocVal.int 1),
   ("score", DocVal.int 99999)]

/-- A second sample document. -/
def sampleDoc1 : Document :=
  [("_text", DocVal.str "bar"), ("title", DocVal.str "title 2")]

/-- A sample document list. -/
def sampleDocs : List Document := [sampleDoc0, sampleDoc1]

/-- A sample reranker whose cross-encoder scores a document by its key
count. -/
def sampleRerank : Rerank := ⟨0, fun _ d => (d.length : Int)⟩

/-! Section: Helper lemmas -/

/-- Dict lookup over an append: a binding in the later list shadows any
binding of the same key in the earlier one. -/
theorem dictGet_append (a b : List (String × TAVal)) (key : String) :
    dictGet (a ++ b) key =
      match dictGet b key with
      | Option.some w => Option.some w
      | Option.none => dictGet a key := by
  induction a with
  | nil => cases h : dictGet b key <;> simp [dictGet, h]
  | cons hd tl ih =>
      obtain ⟨k, v⟩ := hd
      simp only [List.cons_append, dictGet, List.append_eq, ih]
      cases dictGet b key <;> cases dictGet tl key <;> simp

/-- The score list of `rankDocs` has the clamped length. -/
theorem rankDocs_scores_length (m : Rerank) (q : String)
    (documents : List Document) (top_n : Option Int) :
    (m.rankDocs q documents top_n).scores.length =
      min (clampTopN top_n documents.length) documents.length := by
  simp [Rerank.rankDocs, List.length_take, List.length_insertionSort,
    List.length_map, List.enum_length]

/-- Every entry of a `rankDocs` score list carries the original document found
at its corpus index. -/
theorem rankDocs_mem_passthrough (m : Rerank) (q : String)
    (documents : List Document) (top_n : Option Int) (s : RerankScore)
    (hs : s ∈ (m.rankDocs q documents top_n).scores) :
    documents[s.corpus_id]? = Option.some s.document := by
  simp only [Rerank.rankDocs] at hs
  have h1 := List.mem_of_mem_take hs
  have h2 := (List.mem_insertionSort scoreDesc).mp h1
  obtain ⟨p, hp, rfl⟩ := List.mem_map.mp h2
  exact List.mem_enum_iff_getElem?.mp hp

/-- The score list of `rankDocs` is ordered by descending score. -/
theorem rankDocs_sorted (m : Rerank) (q : String) (documents : List Document)
    (top_n : Option Int) :
    List.Sorted scoreDesc (m.rankDocs q documents top_n).scores :=
  List.Pairwise.sublist (List.take_sublist _ _)
    (List.sorted_insertionSort scoreDesc _)

/-! Section: Claims about `FineTuning` -/

/-- Claim C2: for every call to train with `num_epochs < 1`, the trainer's
training loop is never invoked, the low-epoch warning is emitted, and a valid
untrained wrapper around the constructed trainer is returned without error. -/
theorem train_skips_training_below_one_epoch (tok : Tokenizer)
    (trainer : WrappedModel) (num_epochs : Int) (h : num_epochs < 1) :
    FineTuning.trainFinalize tok trainer num_epochs =
      Except.ok ⟨⟨tok, trainer⟩, true, false⟩ := by
  simp [FineTuning.trainFinalize, h]

/-- Witness for C2 at `num_epochs = 0`. -/
theorem train_skips_training_below_one_epoch_witness :
    FineTuning.trainFinalize ⟨0⟩ WrappedModel.plainTrainer 0 =
      Except.ok ⟨⟨⟨0⟩, WrappedModel.plainTrainer⟩, true, false⟩ :=
  train_skips_training_below_one_epoch ⟨0⟩ WrappedModel.plainTrainer 0
    (by decide)

/-- Claim C3: `run` raises an explicit not-implemented error whenever the
wrapped model is not a Seq2Seq trainer (plain trainer or not a trainer at
all), and returns a generated-text result exactly when it is one. -/
theorem run_requires_seq2seq_trainer (ft : FineTuning) (text : String)
    (p : Bool) (mx mn : Nat) :
    ((∀ predict, ft.model ≠ WrappedModel.seq2seqTrainer predict) →
      ft.run text p mx mn = Except.error RunError.notImplementedTrainerGeneration ∨
      ft.run text p mx mn = Except.error RunError.notImplementedPreFinetuned) ∧
    (∀ predict, ft.model = WrappedModel.seq2seqTrainer predict →
      ft.run text p mx mn = Except.ok ⟨predict text mx mn⟩) := by
  constructor
  · intro hne
    cases hm : ft.model with
    | seq2seqTrainer predict => exact absurd hm (hne predict)
    | plainTrainer => exact Or.inl (by simp [FineTuning.run, hm])
    | notTrainer => exact Or.inr (by simp [FineTuning.run, hm])
  · intro predict hm
    simp [FineTuning.run, hm]

/-- Witness for C3 on a wrapper holding a plain trainer. -/
theorem run_requires_seq2seq_trainer_witness :
    (FineTuning.mk ⟨0⟩ WrappedModel.plainTrainer).run "hello" false 20 0 =
        Except.error RunError.notImplementedTrainerGeneration ∨
      (FineTuning.mk ⟨0⟩ WrappedModel.plainTrainer).run "hello" false 20 0 =
        Except.error RunError.notImplementedPreFinetuned :=
  (run_requires_seq2seq_trainer
      (FineTuning.mk ⟨0⟩ WrappedModel.plainTrainer) "hello" false 20 0).1
    (fun _ h => WrappedModel.noConfusion h)

/-- Claim C8: the resolved torch dtype determines the dtype-based precision
parameters merged into the trainer configuration: float16 yields `fp16=True`,
bfloat16 yields `bf16=True`, and any other dtype yields neither flag. -/
theorem dtype_precision_flags (d : TorchDtype) :
    (d = TorchDtype.float16 →
      dtype_based_params d = [("fp16", TAVal.vBool true)]) ∧
    (d = TorchDtype.bfloat16 →
      dtype_based_params d = [("bf16", TAVal.vBool true)]) ∧
    (d ≠ TorchDtype.float16 → d ≠ TorchDtype.bfloat16 →
      dtype_based_params d = []) := by
  cases d <;> simp [dtype_based_params]

/-- Witness for C8 at the float16 dtype. -/
theorem dtype_precision_flags_witness :
    dtype_based_params TorchDtype.float16 = [("fp16", TAVal.vBool true)] :=
  (dtype_precision_flags TorchDtype.float16).1 rfl

/-- Claim C10: `run` is insensitive to `preserve_input_text`: for all other
arguments the result with `preserve_input_text = true` equals the result with
`preserve_input_text = false`. -/
theorem run_ignores_preserve_input_text (ft : FineTuning) (text : String)
    (p1 p2 : Bool) (mx mn : Nat) :
    ft.run text p1 mx mn = ft.run text p2 mx mn := rfl

/-- Claim C9: in the merged training-argument dict, a caller-supplied
pass-through binding overrides the built-in default of the same key whenever
the dtype-based params do not bind that key, while a dtype-derived binding
(fp16 / bf16 under float16 / bfloat16) is merged last and overrides any
same-named caller-supplied value. -/
theorem training_args_merge_order (checkpoint_dir : String)
    (batch_size num_epochs accumulate_steps : Int) (lr : ℚ)
    (training_arguments : List (String × TAVal)) (d : TorchDtype)
    (key : String) :
    (dictGet (dtype_based_params d) key = Option.none →
      dictGet training_arguments key ≠ Option.none →
      dictGet (training_args checkpoint_dir batch_size num_epochs
          accumulate_steps lr training_arguments d) key =
        dictGet training_arguments key) ∧
    (dictGet (dtype_based_params d) key ≠ Option.none →
      dictGet (training_args checkpoint_dir batch_size num_epochs
          accumulate_steps lr training_arguments d) key =
        dictGet (dtype_based_params d) key) := by
  constructor
  · intro hd hta
    obtain ⟨w, hw⟩ := Option.ne_none_iff_exists'.mp hta
    simp [training_args, dictGet_append, hd, hw]
  · intro hd
    obtain ⟨w, hw⟩ := Option.ne_none_iff_exists'.mp hd
    simp [training_args, dictGet_append, hw]

/-- Witness for C9: a pass-through `learning_rate` survives the merge under a
float32 dtype, and a pass-through `fp16 := false` is overridden by the
dtype-derived flag under a float16 dtype. -/
theorem training_args_merge_order_witness :
    dictGet (training_args "/tmp" 8 5 32 (1 / 50000)
        [("learning_rate", TAVal.vInt 7)] TorchDtype.float32) "learning_rate" =
      dictGet [("learning_rate", TAVal.vInt 7)] "learning_rate" ∧
    dictGet (training_args "/tmp" 8 5 32 (1 / 50000)
        [("fp16", TAVal.vBool false)] TorchDtype.float16) "fp16" =
      dictGet (dtype_based_params TorchDtype.float16) "fp16" :=
  ⟨(training_args_merge_order "/tmp" 8 5 32 (1 / 50000)
      [("learning_rate", TAVal.vInt 7)] TorchDtype.float32 "learning_rate").1
    (by decide) (by decide),
   (training_args_merge_order "/tmp" 8 5 32 (1 / 50000)
      [("fp16", TAVal.vBool false)] TorchDtype.float16 "fp16").2
    (by decide)⟩

/-! Section: Claims about the reranker -/

/-- Claim C6: `run_queries` on empty queries or empty documents (or both)
returns zero per-query results and raises no error. -/
theorem run_queries_empty_inputs (m : Rerank) (queries : List String)
    (documents : List Document) (top_n : Option Int)
    (h : queries = [] ∨ documents = []) :
    (m.run_queries queries documents top_n).results = [] := by
  rcases h with h | h <;> subst h <;>
    simp [Rerank.run_queries, apply_ite RerankPrediction.results]

/-- Witness for C6 with no queries but two documents. -/
theorem run_queries_empty_inputs_witness :
    (sampleRerank.run_queries [] sampleDocs (Option.some 9)).results = [] :=
  run_queries_empty_inputs sampleRerank [] sampleDocs (Option.some 9)
    (Or.inl rfl)

/-- Claim C4: `save` raises a type error for a non-string path, a value error
for an empty or whitespace-only string path, and an already-exists error when
the target directory exists; a successful save implies the target was fresh
and the previous filesystem entries are all preserved, so nothing is ever
overwritten. -/
theorem save_path_checks (m : Rerank) (fs : FS) (path : PyVal) :
    ((∀ s, path ≠ PyVal.str s) →
      m.save fs path = Except.error SaveErr.typeError) ∧
    (∀ s, path = PyVal.str s → isBlank s = true →
      m.save fs path = Except.error SaveErr.valueError) ∧
    (∀ s, path = PyVal.str s → isBlank s = false → s ∈ fs.entries.map Prod.fst →
      m.save fs path = Except.error SaveErr.fileExists) ∧
    (∀ fsNew, m.save fs path = Except.ok fsNew →
      ∃ s, path = PyVal.str s ∧ s ∉ fs.entries.map Prod.fst ∧
        fsNew.entries = (s, Option.some m.scoreFn) :: fs.entries) := by
  refine ⟨?_, ?_, ?_, ?_⟩
  · intro hns
    cases path with
    | str s => exact absurd rfl (hns s)
    | pyNone => rfl
    | dict => rfl
    | obj => rfl
    | int i => rfl
  · intro s hs htrim
    subst hs
    simp [Rerank.save, htrim]
  · intro s hs htrim hmem
    subst hs
    simp [Rerank.save, htrim, hmem]
  · intro fsNew hok
    cases path with
    | str s =>
        by_cases htrim : isBlank s = true
        · simp [Rerank.save, htrim] at hok
        · by_cases hmem : s ∈ fs.entries.map Prod.fst
          · simp [Rerank.save, htrim, hmem] at hok
          · refine ⟨s, rfl, hmem, ?_⟩
            simp only [Rerank.save, if_neg htrim, if_neg hmem,
              Except.ok.injEq] at hok
            rw [← hok]
    | pyNone => simp [Rerank.save] at hok
    | dict => simp [Rerank.save] at hok
    | obj => simp [Rerank.save] at hok
    | int i => simp [Rerank.save] at hok

/-- Witness for C4: an integer path, a whitespace path, and the root path
(which exists) each raise the corresponding error. -/
theorem save_path_checks_witness :
    sampleRerank.save ⟨[]⟩ (PyVal.int 1) = Except.error SaveErr.typeError ∧
    sampleRerank.save ⟨[]⟩ (PyVal.str "  ") =
      Except.error SaveErr.valueError ∧
    sampleRerank.save ⟨[("/", Option.none)]⟩ (PyVal.str "/") =
      Except.error SaveErr.fileExists :=
  ⟨(save_path_checks sampleRerank ⟨[]⟩ (PyVal.int 1)).1
      (fun _ h => PyVal.noConfusion h),
   (save_path_checks sampleRerank ⟨[]⟩ (PyVal.str "  ")).2.1 "  " rfl
      (by decide),
   (save_path_checks sampleRerank ⟨[("/", Option.none)]⟩ (PyVal.str "/")).2.2.1
      "/" rfl (by decide) (by simp)⟩

/-- Claim C7: on a fresh path, save succeeds; loading that path yields a new
usable model (a distinct instance whose `run_queries` behaves exactly as the
original's); and a second save to the same path fails with an existence
error. -/
theorem save_load_roundtrip (m : Rerank) (fs : FS) (s : String)
    (freshId : Nat) (htrim : isBlank s = false)
    (hfresh : s ∉ fs.entries.map Prod.fst) (hid : freshId ≠ m.instId) :
    ∃ fsNew, m.save fs (PyVal.str s) = Except.ok fsNew ∧
      ∃ mNew, Rerank.load fsNew s freshId = Except.ok mNew ∧
        mNew ≠ m ∧
        (∀ qs ds tn, mNew.run_queries qs ds tn = m.run_queries qs ds tn) ∧
        m.save fsNew (PyVal.str s) = Except.error SaveErr.fileExists := by
  refine ⟨⟨(s, Option.some m.scoreFn) :: fs.entries⟩, ?_,
    ⟨freshId, m.scoreFn⟩, ?_, ?_, ?_, ?_⟩
  · simp [Rerank.save, htrim, hfresh]
  · simp [Rerank.load, List.lookup]
  · intro he
    exact hid (congrArg Rerank.instId he)
  · intro qs ds tn
    rfl
  · simp [Rerank.save, htrim]

/-- Witness for C7 at a concrete fresh path on an empty filesystem. -/
theorem save_load_roundtrip_witness :
    ∃ fsNew, sampleRerank.save ⟨[]⟩ (PyVal.str "models/rr") =
        Except.ok fsNew ∧
      ∃ mNew, Rerank.load fsNew "models/rr" 1 = Except.ok mNew ∧
        mNew ≠ sampleRerank ∧
        (∀ qs ds tn,
          mNew.run_queries qs ds tn = sampleRerank.run_queries qs ds tn) ∧
        sampleRerank.save fsNew (PyVal.str "models/rr") =
          Except.error SaveErr.fileExists :=
  save_load_roundtrip sampleRerank ⟨[]⟩ "models/rr" 1 (by decide) (by simp)
    (by decide)

/-- Claim C5: every returned score entry carries the original input document
found at its corpus index, unchanged and retrievable by original key, and each
query's score list is ordered by descending score. -/
theorem run_queries_order_and_passthrough (m : Rerank) (queries : List String)
    (documents : List Document) (top_n : Option Int) :
    ∀ r ∈ (m.run_queries queries documents top_n).results,
      List.Sorted scoreDesc r.scores ∧
      ∀ s ∈ r.scores,
        documents[s.corpus_id]? = Option.some s.document ∧
        ∀ d, documents[s.corpus_id]? = Option.some d →
          ∀ key, s.document.lookup key = d.lookup key := by
  intro r hr
  by_cases hde : documents.isEmpty
  · simp [Rerank.run_queries, hde] at hr
  · simp only [Rerank.run_queries, if_neg hde, List.mem_map] at hr
    obtain ⟨q, _, rfl⟩ := hr
    refine ⟨rankDocs_sorted m q documents top_n, ?_⟩
    intro s hs
    have h := rankDocs_mem_passthrough m q documents top_n s hs
    refine ⟨h, ?_⟩
    intro d hd key
    rw [h] at hd
    injection hd with hd
    rw [hd]

/-- Witness for C5 on the sample model, queries and documents. -/
theorem run_queries_order_and_passthrough_witness :
    List.Sorted scoreDesc
      (sampleRerank.rankDocs "Who is foo?" sampleDocs (Option.some 2)).scores ∧
    ∀ s ∈ (sampleRerank.rankDocs "Who is foo?" sampleDocs
        (Option.some 2)).scores,
      sampleDocs[s.corpus_id]? = Option.some s.document ∧
      ∀ d, sampleDocs[s.corpus_id]? = Option.some d →
        ∀ key, s.document.lookup key = d.lookup key :=
  run_queries_order_and_passthrough sampleRerank ["Who is foo?"] sampleDocs
    (Option.some 2)
    (sampleRerank.rankDocs "Who is foo?" sampleDocs (Option.some 2))
    (by simp [Rerank.run_queries, sampleDocs])

/-- Claim C1: with non-empty queries and documents, each query's returned
score list has length `min (max top_n 1) (len documents)`, where a `top_n` of
None, zero, a negative value, or a value exceeding the document count defaults
to the document count. -/
theorem run_queries_top_n_length (m : Rerank) (queries : List String)
    (documents : List Document) (top_n : Option Int)
    (hq : queries ≠ []) (hd : documents ≠ []) :
    ∀ r ∈ (m.run_queries queries documents top_n).results,
      r.scores.length =
        min (max (match top_n with
          | Option.none => documents.length
          | Option.some t =>
              if t ≤ 0 ∨ (documents.length : Int) < t then documents.length
              else t.toNat) 1) documents.length := by
  intro r hr
  have hde : documents.isEmpty = false := by
    cases documents with
    | nil => exact absurd rfl hd
    | cons a l => rfl
  have hlen : 1 ≤ documents.length := by
    cases documents with
    | nil => exact absurd rfl hd
    | cons a l => simp
  simp only [Rerank.run_queries, hde, Bool.false_eq_true, if_false,
    List.mem_map] at hr
  obtain ⟨q, _, rfl⟩ := hr
  rw [rankDocs_scores_length]
  cases top_n with
  | none => simp only [clampTopN]; omega
  | some t =>
      simp only [clampTopN]
      by_cases ht : t ≤ 0
      · have hcond : t ≤ 0 ∨ (documents.length : Int) < t := Or.inl ht
        simp only [if_pos ht, if_pos hcond]
        omega
      · by_cases hgt : (documents.length : Int) < t
        · have hcond : t ≤ 0 ∨ (documents.length : Int) < t := Or.inr hgt
          simp only [if_neg ht, if_pos hcond]
          omega
        · have hcond : ¬(t ≤ 0 ∨ (documents.length : Int) < t) := by
            push_neg
            exact ⟨lt_of_not_le ht, not_lt.mp hgt⟩
          simp only [if_neg ht, if_neg hcond]
          omega

/-- Witness for C1 on the sample model with `top_n = 1` over two documents. -/
theorem run_queries_top_n_length_witness :
    (sampleRerank.rankDocs "Who is foo?" sampleDocs
        (Option.some 1)).scores.length = 1 := by
  have h := run_queries_top_n_length sampleRerank ["Who is foo?"] sampleDocs
    (Option.some 1) (by simp) (by simp [sampleDocs])
    (sampleRerank.rankDocs "Who is foo?" sampleDocs (Option.some 1))
    (by simp [Rerank.run_queries, sampleDocs])
  simpa [sampleDocs] using h

end CaikitNlp
